import Mathlib

/-!
Verification of the Twilio ↔ ElevenLabs websocket bridge
(`src/inbound-calls.js`, `registerInboundRoutes`).

The bridge is embedded shallowly: JavaScript values reachable from
`JSON.parse` are modelled by `JSVal`, property access (which throws a
`TypeError` on `null`/`undefined` receivers) by `getField`, optional
chaining (`?.`) by `optField`, and JS truthiness by `truthy`.  Each
websocket event handler of the source becomes a Lean function from the
per-call session state to a new state plus the list of emitted actions
(frames sent on either leg, and socket closes); a handler that can throw
returns `Except Unit`.  The debug counters `twilioInboundFrames` /
`twilioOutboundFrames` and all `console.log` calls are omitted: they only
feed logging and never influence state or emitted frames.
-/

/-- A JavaScript value as produced by `JSON.parse` (plus `undefined`,
which property access can yield but `JSON.parse` itself never returns). -/
inductive JSVal where
  | null
  | undefined
  | bool (b : Bool)
  | num (n : Int)
  | str (s : String)
  | obj (fields : List (String × JSVal))
  | arr (elems : List JSVal)
deriving Repr

/-- JavaScript truthiness. -/
def truthy : JSVal → Bool
  | .null => false
  | .undefined => false
  | .bool b => b
  | .num n => n != 0
  | .str s => s ≠ ""
  | .obj _ => true
  | .arr _ => true

/-- Object field lookup; with duplicate keys the last occurrence wins,
as in `JSON.parse`. -/
def lookupField : List (String × JSVal) → String → Option JSVal
  | [], _ => none
  | (k, v) :: rest, key =>
    match lookupField rest key with
    | some w => some w
    | none => if k = key then some v else none

/-- JavaScript property access `v.k`: throws a `TypeError` on `null` or
`undefined` receivers; on objects yields the field or `undefined`; on
other primitives yields `undefined` (no interesting properties are read
from boxed primitives in this program). -/
def getField : JSVal → String → Except Unit JSVal
  | .null, _ => .error ()
  | .undefined, _ => .error ()
  | .obj fields, k => .ok ((lookupField fields k).getD .undefined)
  | _, _ => .ok .undefined

/-- Optional chaining `v?.k`: yields `undefined` instead of throwing when
the receiver is `null` or `undefined`. -/
def optField (v : JSVal) (k : String) : Except Unit JSVal :=
  match v with
  | .null => .ok .undefined
  | .undefined => .ok .undefined
  | _ => getField v k

/-- Strict equality `v === "t"` against a string literal. -/
def isStr (v : JSVal) (t : String) : Bool :=
  match v with
  | .str u => u = t
  | _ => false

/-- `readyState` of a `ws` WebSocket (names follow the `WebSocket`
constants). -/
inductive ReadyState where
  | CONNECTING
  | OPEN
  | CLOSING
  | CLOSED
deriving DecidableEq, Repr

/-- The per-call mutable state of one bridge instance: the `let`-bound
variables of the `/media-stream` handler.  `elevenWs` is `none` while the
agent-leg socket object does not exist yet, and otherwise carries its
`readyState`.  `connection` is the caller-leg socket's state (never read
by the source handlers; kept to state teardown claims). -/
structure Session where
  streamSid : JSVal
  elevenWs : Option ReadyState
  twilioStarted : Bool
  elevenOpen : Bool
  convoStarted : Bool
  connection : ReadyState
deriving Repr

/-- The session state right after the agent-leg socket is created
(`new WebSocket(signedUrl)`) and the handlers are attached. -/
def initSession : Session :=
  { streamSid := .null
    elevenWs := some .CONNECTING
    twilioStarted := false
    elevenOpen := false
    convoStarted := false
    connection := .OPEN }

/-- An observable effect of a handler: a frame sent on one of the two
legs (the argument of `JSON.stringify`), or a socket close call. -/
inductive BridgeAction where
  | sendAgent (v : JSVal)
  | sendCaller (v : JSVal)
  | closeAgent
  | closeCaller
deriving Repr

/-- The start-conversation signal `{type:"start"}`. -/
def startMsg : JSVal := .obj [("type", .str "start")]

/-- The audio-format configuration frame sent on agent-leg open. -/
def conversationConfigMsg : JSVal :=
  .obj [("type", .str "conversation_config"),
        ("conversation_config",
          .obj [("audio",
            .obj [("output",
              .obj [("encoding", .str "mulaw"),
                    ("sample_rate", .num 8000)])])])]

/-- `tryStartConversation` (src/inbound-calls.js lines 75-88): the gate.
Checks, in source order: `convoStarted`; `twilioStarted` and `streamSid`
truthiness; agent socket existence and `readyState === OPEN`;
`elevenOpen`.  If all pass, sets `convoStarted` and sends
`{type:"start"}` to the agent leg. -/
def tryStartConversation (s : Session) : Session × List BridgeAction :=
  if s.convoStarted then (s, [])
  else if !s.twilioStarted || !truthy s.streamSid then (s, [])
  else
    match s.elevenWs with
    | none => (s, [])
    | some rs =>
      if rs = ReadyState.OPEN then
        if !s.elevenOpen then (s, [])
        else ({ s with convoStarted := true }, [.sendAgent startMsg])
      else (s, [])

/-- The agent-leg `open` handler (lines 98-121).  The runtime fires
`open` exactly when the socket's `readyState` becomes `OPEN`, so the
transition also records `elevenWs = some OPEN`.  The handler sets
`elevenOpen`, sends the configuration frame, then evaluates the gate. -/
def onElevenOpen (s : Session) : Session × List BridgeAction :=
  let s1 := { s with elevenWs := some ReadyState.OPEN, elevenOpen := true }
  let r := tryStartConversation s1
  (r.1, .sendAgent conversationConfigMsg :: r.2)

/-- An inbound raw websocket frame, abstracted at the `JSON.parse`
boundary: `bad` when the text is not parseable JSON (the `catch` branch),
`good v` when it parses to the value `v`. -/
inductive RawFrame where
  | bad
  | good (v : JSVal)
deriving Repr

/-- The agent-leg `message` handler (lines 123-176).  Non-parseable
frames return early.  An `audio` frame with a truthy
`audio_event?.audio_base_64` is repackaged as a caller media envelope,
unless `streamSid` is falsy, in which case the handler returns (dropping
the frame).  An `interruption` frame with a truthy `streamSid` produces a
clear envelope.  Property access on a `null` or `undefined` parsed value
throws. -/
def onElevenMessage (s : Session) : RawFrame → Except Unit (Session × List BridgeAction)
  | .bad => .ok (s, [])
  | .good msg =>
    match getField msg "type" with
    | .error e => .error e
    | .ok ty =>
      let interruptionOuts : List BridgeAction :=
        if isStr ty "interruption" && truthy s.streamSid then
          [.sendCaller (.obj [("event", .str "clear"), ("streamSid", s.streamSid)])]
        else []
      if isStr ty "audio" then
        match getField msg "audio_event" with
        | .error e => .error e
        | .ok ae =>
          match optField ae "audio_base_64" with
          | .error e => .error e
          | .ok ab =>
            if truthy ab then
              if !truthy s.streamSid then
                .ok (s, [])
              else
                .ok (s, .sendCaller (.obj [("event", .str "media"),
                      ("streamSid", s.streamSid),
                      ("media", .obj [("payload", ab)])]) :: interruptionOuts)
            else
              .ok (s, interruptionOuts)
      else
        .ok (s, interruptionOuts)

/-- The `media` branch of the caller-leg `message` handler (lines
205-225): the inner guarded forward, named so it can be reasoned about
separately.  Forwards the payload as `{user_audio_chunk: payload}` only
when the agent socket exists with `readyState === OPEN` (checked first,
in source order) and `data.media?.payload` is truthy. -/
def mediaForwardOuts (s : Session) (data : JSVal) : Except Unit (List BridgeAction) :=
  match s.elevenWs with
  | some ReadyState.OPEN =>
    match getField data "media" with
    | .error e => .error e
    | .ok m =>
      match optField m "payload" with
      | .error e => .error e
      | .ok p =>
        if truthy p then
          .ok [BridgeAction.sendAgent (.obj [("user_audio_chunk", p)])]
        else
          .ok []
  | _ => .ok []

/-- The caller-leg `message` handler (lines 187-233).  A `start` frame
records `data.start?.streamSid || null`, sets `twilioStarted`, evaluates
the gate, and returns.  A `media` frame is forwarded via
`mediaForwardOuts`.  A `stop` frame closes the agent socket when it is
`OPEN`.  Property access on a `null` or `undefined` parsed value
throws. -/
def onTwilioMessage (s : Session) : RawFrame → Except Unit (Session × List BridgeAction)
  | .bad => .ok (s, [])
  | .good data =>
    match getField data "event" with
    | .error e => .error e
    | .ok ev =>
      if isStr ev "start" then
        match getField data "start" with
        | .error e => .error e
        | .ok st =>
          match optField st "streamSid" with
          | .error e => .error e
          | .ok sidv =>
            let sid := if truthy sidv then sidv else JSVal.null
            let s1 := { s with streamSid := sid, twilioStarted := true }
            .ok (tryStartConversation s1)
      else
        match (if isStr ev "media" then mediaForwardOuts s data else .ok []) with
        | .error e => .error e
        | .ok outs1 =>
          let stopPart : Session × List BridgeAction :=
            if isStr ev "stop" then
              match s.elevenWs with
              | some ReadyState.OPEN =>
                ({ s with elevenWs := some ReadyState.CLOSING }, [BridgeAction.closeAgent])
              | _ => (s, [])
            else (s, [])
          .ok (stopPart.1, outs1 ++ stopPart.2)

/-- The caller-leg `close` handler (lines 235-240): closes the agent
socket when it exists and is `OPEN`; otherwise does nothing.  The event
itself means the caller socket is now closed. -/
def onTwilioClose (s : Session) : Session × List BridgeAction :=
  let s0 := { s with connection := ReadyState.CLOSED }
  match s0.elevenWs with
  | some ReadyState.OPEN =>
    ({ s0 with elevenWs := some ReadyState.CLOSING }, [BridgeAction.closeAgent])
  | _ => (s0, [])

/-- The caller-leg `error` handler (lines 242-247): same body as the
`close` handler (log, then guarded close of the agent socket). -/
def onTwilioError (s : Session) : Session × List BridgeAction :=
  match s.elevenWs with
  | some ReadyState.OPEN =>
    ({ s with elevenWs := some ReadyState.CLOSING }, [BridgeAction.closeAgent])
  | _ => (s, [])

/-- The agent-leg `close` handler (lines 178-180): only logs.  The event
itself means the agent socket is now closed. -/
def onElevenClose (s : Session) : Session × List BridgeAction :=
  ({ s with elevenWs := some ReadyState.CLOSED }, [])

/-- The agent-leg `error` handler (lines 182-184): only logs. -/
def onElevenError (s : Session) : Session × List BridgeAction :=
  (s, [])

/-- One asynchronous event delivered to a bridge instance. -/
inductive Event where
  | elevenOpenEv
  | elevenMsg (r : RawFrame)
  | twilioMsg (r : RawFrame)
  | elevenCloseEv
  | elevenErrorEv
  | twilioCloseEv
  | twilioErrorEv
deriving Repr

/-- Dispatch one event to its handler. -/
def step (s : Session) : Event → Except Unit (Session × List BridgeAction)
  | .elevenOpenEv => .ok (onElevenOpen s)
  | .elevenMsg r => onElevenMessage s r
  | .twilioMsg r => onTwilioMessage s r
  | .elevenCloseEv => .ok (onElevenClose s)
  | .elevenErrorEv => .ok (onElevenError s)
  | .twilioCloseEv => .ok (onTwilioClose s)
  | .twilioErrorEv => .ok (onTwilioError s)

/-- Run a sequence of events, collecting all emitted actions in order. -/
def runTrace (s : Session) : List Event → Except Unit (Session × List BridgeAction)
  | [] => .ok (s, [])
  | e :: es =>
    match step s e with
    | .error er => .error er
    | .ok r1 =>
      match runTrace r1.1 es with
      | .error er => .error er
      | .ok r2 => .ok (r2.1, r1.2 ++ r2.2)

/-- A caller `start` frame carrying `sid` as its nested stream
identifier. -/
def startFrame (sid : JSVal) : JSVal :=
  .obj [("event", .str "start"), ("start", .obj [("streamSid", sid)])]

/-- A caller `media` frame carrying payload `p`. -/
def callerMediaFrame (p : JSVal) : JSVal :=
  .obj [("event", .str "media"), ("media", .obj [("payload", p)])]

/-- An agent `audio` frame carrying `p` as `audio_event.audio_base_64`. -/
def audioFrame (p : JSVal) : JSVal :=
  .obj [("type", .str "audio"), ("audio_event", .obj [("audio_base_64", p)])]

/-- An agent `interruption` frame. -/
def interruptionFrame : JSVal :=
  .obj [("type", .str "interruption")]

/-! ## Helper lemmas on the gate and handler outputs -/

theorem tryStart_of_convoStarted (s : Session) (h : s.convoStarted = true) :
    tryStartConversation s = (s, []) := by
  simp [tryStartConversation, h]

theorem tryStart_of_falsy_sid (s : Session) (h : truthy s.streamSid = false) :
    tryStartConversation s = (s, []) := by
  unfold tryStartConversation
  simp [h]

theorem tryStart_spec (s : Session) :
    tryStartConversation s = (s, []) ∨
      (truthy s.streamSid = true ∧ s.convoStarted = false ∧
        tryStartConversation s =
          ({ s with convoStarted := true }, [.sendAgent startMsg])) := by
  unfold tryStartConversation
  rcases hc : s.convoStarted with _ | _
  · rcases ht : s.twilioStarted with _ | _
    · simp
    · rcases hsid : truthy s.streamSid with _ | _
      · simp
      · rcases hws : s.elevenWs with _ | rs
        · simp
        · rcases rs <;> rcases he : s.elevenOpen <;> simp [hsid]
  · simp

theorem onElevenMessage_ok (s : Session) (r : RawFrame) (s' : Session)
    (outs : List BridgeAction) (H : onElevenMessage s r = .ok (s', outs)) :
    s' = s ∧ ∀ a ∈ outs, truthy s.streamSid = true ∧
      ((∃ ab, a = .sendCaller (.obj [("event", .str "media"),
          ("streamSid", s.streamSid), ("media", .obj [("payload", ab)])])) ∨
        a = .sendCaller (.obj [("event", .str "clear"),
          ("streamSid", s.streamSid)])) := by
  cases r with
  | bad =>
    simp only [onElevenMessage, Except.ok.injEq, Prod.mk.injEq] at H
    obtain ⟨h1, h2⟩ := H
    subst h1; subst h2
    simp
  | good msg =>
    simp only [onElevenMessage] at H
    repeat' split at H
    all_goals first
      | exact Except.noConfusion H
      | (simp only [Except.ok.injEq, Prod.mk.injEq] at H
         obtain ⟨h1, h2⟩ := H
         subst h1; subst h2
         simp_all)

theorem tryStart_outs_mem (s1 s' : Session) (outs : List BridgeAction)
    (h : tryStartConversation s1 = (s', outs)) :
    ∀ a ∈ outs, a = .sendAgent startMsg ∧ truthy s'.streamSid = true := by
  rcases tryStart_spec s1 with hA | ⟨hsid, _, hB⟩
  · rw [hA] at h
    obtain ⟨h1, h2⟩ := Prod.mk.injEq .. ▸ h
    subst h2
    simp
  · rw [hB] at h
    injection h with h1 h2
    subst h1; subst h2
    simpa using hsid

theorem mediaForwardOuts_mem (s : Session) (data : JSVal)
    (outs1 : List BridgeAction) (h : mediaForwardOuts s data = .ok outs1) :
    ∀ a ∈ outs1, ∃ p, a = .sendAgent (.obj [("user_audio_chunk", p)]) := by
  unfold mediaForwardOuts at h
  repeat' split at h
  all_goals first
    | exact Except.noConfusion h
    | (simp only [Except.ok.injEq] at h
       subst h
       intro a ha
       fin_cases ha
       exact ⟨_, rfl⟩)
    | (simp only [Except.ok.injEq] at h
       subst h
       intro a ha
       exact absurd ha (List.not_mem_nil a))

theorem onTwilioMessage_ok (s : Session) (r : RawFrame) (s' : Session)
    (outs : List BridgeAction) (H : onTwilioMessage s r = .ok (s', outs)) :
    ∀ a ∈ outs,
      (∃ p, a = .sendAgent (.obj [("user_audio_chunk", p)])) ∨
      a = BridgeAction.closeAgent ∨
      (a = .sendAgent startMsg ∧ truthy s'.streamSid = true) := by
  cases r with
  | bad =>
    simp only [onTwilioMessage, Except.ok.injEq, Prod.mk.injEq] at H
    obtain ⟨h1, h2⟩ := H
    subst h2
    simp
  | good data =>
    simp only [onTwilioMessage] at H
    split at H
    · exact Except.noConfusion H
    · split at H
      · -- start frame
        split at H
        · exact Except.noConfusion H
        · split at H
          · exact Except.noConfusion H
          · simp only [Except.ok.injEq] at H
            intro a ha
            exact Or.inr (Or.inr (tryStart_outs_mem _ _ _ H a ha))
      · -- non-start frame: media forward, then stop
        split at H
        · exact Except.noConfusion H
        · next outs1 heq =>
            simp only [Except.ok.injEq, Prod.mk.injEq] at H
            obtain ⟨h1, h2⟩ := H
            subst h1; subst h2
            intro a ha
            rcases List.mem_append.1 ha with hmem | hmem
            · split at heq
              · obtain ⟨p, rfl⟩ := mediaForwardOuts_mem _ _ _ heq a hmem
                exact Or.inl ⟨p, rfl⟩
              · simp only [Except.ok.injEq] at heq
                subst heq
                exact absurd hmem (List.not_mem_nil a)
            · split at hmem
              · split at hmem
                · fin_cases hmem
                  exact Or.inr (Or.inl rfl)
                · exact absurd hmem (List.not_mem_nil a)
              · exact absurd hmem (List.not_mem_nil a)

theorem onElevenOpen_outs (s : Session) :
    ∃ rest,
      onElevenOpen s =
        ((tryStartConversation
            { s with elevenWs := some ReadyState.OPEN, elevenOpen := true }).1,
          .sendAgent conversationConfigMsg :: rest) ∧
      (rest = [] ∨ (rest = [.sendAgent startMsg] ∧ truthy s.streamSid = true)) := by
  rcases tryStart_spec { s with elevenWs := some ReadyState.OPEN, elevenOpen := true }
    with hA | ⟨hsid, _, hB⟩
  · exact ⟨[], by simp [onElevenOpen, hA], Or.inl rfl⟩
  · exact ⟨[.sendAgent startMsg], by simp [onElevenOpen, hB], Or.inr ⟨rfl, hsid⟩⟩

/-- The session after the caller `start` frame has been processed from
the initial state (agent leg still connecting). -/
def afterCallerStart (sid : JSVal) : Session :=
  { streamSid := sid
    elevenWs := some .CONNECTING
    twilioStarted := true
    elevenOpen := false
    convoStarted := false
    connection := .OPEN }

/-- The session after the agent leg has opened from the initial state
(caller `start` not yet received). -/
def afterAgentOpen : Session :=
  { streamSid := .null
    elevenWs := some .OPEN
    twilioStarted := false
    elevenOpen := true
    convoStarted := false
    connection := .OPEN }

/-- The session once both handshakes finished and the gate has fired. -/
def afterBoth (sid : JSVal) : Session :=
  { streamSid := sid
    elevenWs := some .OPEN
    twilioStarted := true
    elevenOpen := true
    convoStarted := true
    connection := .OPEN }

/-- C1: for either interleaving of the caller `start` frame (carrying a
truthy stream identifier `sid`) and the agent-leg open event, the
`{type:"start"}` signal is sent to the agent leg exactly once, and only
in the output of whichever event completes the pair — the first event of
the pair never emits it; and once the gate has fired, re-evaluating it is
a no-op. -/
theorem start_signal_exactly_once (sid : JSVal) (hsid : truthy sid = true) :
    (onTwilioMessage initSession (.good (startFrame sid)) =
        .ok (afterCallerStart sid, []) ∧
      onElevenOpen (afterCallerStart sid) =
        (afterBoth sid,
          [.sendAgent conversationConfigMsg, .sendAgent startMsg])) ∧
    (onElevenOpen initSession =
        (afterAgentOpen, [.sendAgent conversationConfigMsg]) ∧
      onTwilioMessage afterAgentOpen (.good (startFrame sid)) =
        .ok (afterBoth sid, [.sendAgent startMsg])) ∧
    (∀ t : Session, t.convoStarted = true → tryStartConversation t = (t, [])) := by
  refine ⟨⟨?_, ?_⟩, ⟨?_, ?_⟩, tryStart_of_convoStarted⟩ <;>
    simp [onTwilioMessage, onElevenOpen, tryStartConversation, startFrame,
      getField, lookupField, optField, isStr, initSession, hsid,
      afterCallerStart, afterAgentOpen, afterBoth]

/-- Witness for C1 at the spec scenario identifier "CA123". -/
theorem start_signal_exactly_once_witness :
    truthy (JSVal.str "CA123") = true ∧
    ((onTwilioMessage initSession (.good (startFrame (.str "CA123"))) =
        .ok (afterCallerStart (.str "CA123"), []) ∧
      onElevenOpen (afterCallerStart (.str "CA123")) =
        (afterBoth (.str "CA123"),
          [.sendAgent conversationConfigMsg, .sendAgent startMsg])) ∧
    (onElevenOpen initSession =
        (afterAgentOpen, [.sendAgent conversationConfigMsg]) ∧
      onTwilioMessage afterAgentOpen (.good (startFrame (.str "CA123"))) =
        .ok (afterBoth (.str "CA123"), [.sendAgent startMsg])) ∧
    (∀ t : Session, t.convoStarted = true → tryStartConversation t = (t, []))) :=
  ⟨rfl, start_signal_exactly_once (.str "CA123") rfl⟩

theorem getField_ok (v : JSVal) (k : String) (h1 : v ≠ .null) (h2 : v ≠ .undefined) :
    ∃ r, getField v k = .ok r := by
  cases v <;> simp_all [getField]

theorem optField_ok (v : JSVal) (k : String) : ∃ r, optField v k = .ok r := by
  cases v <;> simp [optField, getField]

theorem onElevenMessage_total (s : Session) (v : JSVal)
    (h1 : v ≠ .null) (h2 : v ≠ .undefined) :
    ∃ r, onElevenMessage s (.good v) = .ok r := by
  obtain ⟨ty, hty⟩ := getField_ok v "type" h1 h2
  obtain ⟨ae, hae⟩ := getField_ok v "audio_event" h1 h2
  obtain ⟨ab, hab⟩ := optField_ok ae "audio_base_64"
  simp only [onElevenMessage, hty, hae, hab]
  split
  · split
    · split
      · exact ⟨_, rfl⟩
      · exact ⟨_, rfl⟩
    · exact ⟨_, rfl⟩
  · exact ⟨_, rfl⟩

theorem mediaForwardOuts_total (s : Session) (v : JSVal)
    (h1 : v ≠ .null) (h2 : v ≠ .undefined) :
    ∃ r, mediaForwardOuts s v = .ok r := by
  obtain ⟨m, hm⟩ := getField_ok v "media" h1 h2
  obtain ⟨p, hp⟩ := optField_ok m "payload"
  unfold mediaForwardOuts
  rcases s.elevenWs with _ | rs
  · exact ⟨_, rfl⟩
  · cases rs
    · exact ⟨_, rfl⟩
    · simp only [hm, hp]
      split
      · exact ⟨_, rfl⟩
      · exact ⟨_, rfl⟩
    · exact ⟨_, rfl⟩
    · exact ⟨_, rfl⟩

theorem onTwilioMessage_total (s : Session) (v : JSVal)
    (h1 : v ≠ .null) (h2 : v ≠ .undefined) :
    ∃ r, onTwilioMessage s (.good v) = .ok r := by
  obtain ⟨ev, hev⟩ := getField_ok v "event" h1 h2
  obtain ⟨st, hst⟩ := getField_ok v "start" h1 h2
  obtain ⟨sidv, hsidv⟩ := optField_ok st "streamSid"
  obtain ⟨outs1, houts1⟩ := mediaForwardOuts_total s v h1 h2
  simp only [onTwilioMessage, hev, hst, hsidv]
  split
  · exact ⟨_, rfl⟩
  · split
    · next heq =>
        exfalso
        split at heq
        · rw [houts1] at heq
          exact Except.noConfusion heq
        · exact Except.noConfusion heq
    · exact ⟨_, rfl⟩

theorem tryStart_fst_streamSid (t : Session) :
    (tryStartConversation t).1.streamSid = t.streamSid := by
  rcases tryStart_spec t with h | ⟨_, _, h⟩ <;> rw [h]

theorem truthy_ne_null {v : JSVal} (h : truthy v = true) : v ≠ JSVal.null := by
  cases v <;> simp_all [truthy]

/-! ## Claim theorems -/

/-- C2: an agent `audio` frame whose `audio_event.audio_base_64` is a
non-empty string, received while the stream identifier is the known
non-empty string `sid`, makes the bridge send the caller leg exactly the
envelope `{event:"media", streamSid:sid, media:{payload:p}}`, with the
payload string the very same string (no re-encoding), and nothing else;
the session state is unchanged. -/
theorem agent_audio_forwarded_verbatim (s : Session) (sid p : String)
    (hs : s.streamSid = .str sid) (hsid : sid ≠ "") (hp : p ≠ "") :
    onElevenMessage s (.good (audioFrame (.str p))) =
      .ok (s, [.sendCaller (.obj [("event", .str "media"),
        ("streamSid", .str sid), ("media", .obj [("payload", .str p)])])]) := by
  simp [onElevenMessage, audioFrame, getField, lookupField, optField, isStr,
    truthy, hs, hsid, hp]

/-- Witness for C2 at the spec scenario: stream id "CA123", payload
"QUJD". -/
theorem agent_audio_forwarded_verbatim_witness :
    onElevenMessage (afterBoth (.str "CA123")) (.good (audioFrame (.str "QUJD"))) =
      .ok (afterBoth (.str "CA123"),
        [.sendCaller (.obj [("event", .str "media"),
          ("streamSid", .str "CA123"),
          ("media", .obj [("payload", .str "QUJD")])])]) :=
  agent_audio_forwarded_verbatim (afterBoth (.str "CA123")) "CA123" "QUJD"
    rfl (by decide) (by decide)

/-- C7: an agent `interruption` frame received while the stream
identifier is truthy produces exactly one outbound
`{event:"clear", streamSid}` envelope to the caller leg and no state
change; received while the identifier is falsy it produces nothing. -/
theorem interruption_clear_exactly_once (s : Session) :
    (truthy s.streamSid = true →
      onElevenMessage s (.good interruptionFrame) =
        .ok (s, [.sendCaller (.obj [("event", .str "clear"),
          ("streamSid", s.streamSid)])])) ∧
    (truthy s.streamSid = false →
      onElevenMessage s (.good interruptionFrame) = .ok (s, [])) := by
  constructor <;> intro h <;>
    simp [onElevenMessage, interruptionFrame, getField, lookupField, optField,
      isStr, h]

/-- Witness for C7: a known identifier yields the clear frame; the
initial state (identifier still null) yields nothing. -/
theorem interruption_clear_exactly_once_witness :
    onElevenMessage (afterBoth (.str "CA123")) (.good interruptionFrame) =
      .ok (afterBoth (.str "CA123"),
        [.sendCaller (.obj [("event", .str "clear"),
          ("streamSid", .str "CA123")])]) ∧
    onElevenMessage initSession (.good interruptionFrame) =
      .ok (initSession, []) :=
  ⟨(interruption_clear_exactly_once (afterBoth (.str "CA123"))).1 rfl,
   (interruption_clear_exactly_once initSession).2 rfl⟩

/-- C8: on every agent-leg open event the very first frame sent is the
configuration frame of the exact shape
`{type:"conversation_config", conversation_config:{audio:{output:
{encoding:"mulaw", sample_rate:8000}}}}`; the only other frame the open
handler can send is the start signal, after the configuration frame. -/
theorem config_frame_first_on_open (s : Session) :
    ∃ s' rest,
      onElevenOpen s =
        (s', BridgeAction.sendAgent
          (.obj [("type", .str "conversation_config"),
            ("conversation_config",
              .obj [("audio",
                .obj [("output",
                  .obj [("encoding", .str "mulaw"),
                    ("sample_rate", .num 8000)])])])]) :: rest) ∧
      (rest = [] ∨ rest = [.sendAgent startMsg]) := by
  obtain ⟨rest, heq, hr⟩ := onElevenOpen_outs s
  refine ⟨_, rest, heq, ?_⟩
  rcases hr with h | ⟨h, _⟩
  · exact Or.inl h
  · exact Or.inr h

/-- C4 counterexample: when the agent leg closes while the caller leg is
still open, the bridge performs no action at all — in particular it does
not close the caller leg, so "closing one leg always closes the other"
fails in the agent-to-caller direction. -/
theorem agent_close_leaves_caller_open :
    (onElevenClose (afterBoth (.str "CA123"))).2 = [] ∧
    (afterBoth (.str "CA123")).connection = ReadyState.OPEN ∧
    (onElevenError (afterBoth (.str "CA123"))).2 = [] :=
  ⟨rfl, rfl, rfl⟩

/-- C4 (amended): when the caller leg closes or errors the bridge closes
the agent leg if it is `OPEN`; when the agent socket is not `OPEN` the
close is skipped entirely (a no-op, not an error); when the agent leg
closes or errors the bridge only logs and never closes the caller leg. -/
theorem teardown_caller_to_agent_only :
    (∀ s : Session, s.elevenWs = some ReadyState.OPEN →
        onTwilioClose s =
          ({ s with connection := ReadyState.CLOSED, elevenWs := some ReadyState.CLOSING },
            [.closeAgent]) ∧
        onTwilioError s =
          ({ s with elevenWs := some ReadyState.CLOSING }, [.closeAgent])) ∧
    (∀ s : Session, s.elevenWs ≠ some ReadyState.OPEN →
        (onTwilioClose s).2 = [] ∧ (onTwilioError s).2 = []) ∧
    (∀ s : Session, (onElevenClose s).2 = [] ∧ onElevenError s = (s, [])) := by
  refine ⟨?_, ?_, ?_⟩
  · intro s h
    constructor <;> simp [onTwilioClose, onTwilioError, h]
  · intro s h
    constructor <;>
      (rcases hE : s.elevenWs with _ | rs
       · simp [onTwilioClose, onTwilioError, hE]
       · cases rs <;> simp_all [onTwilioClose, onTwilioError])
  · intro s
    exact ⟨rfl, rfl⟩

/-- Witness for C4's amended theorem at concrete states. -/
theorem teardown_caller_to_agent_only_witness :
    onTwilioClose (afterBoth (.str "CA123")) =
      ({ afterBoth (.str "CA123") with
          connection := ReadyState.CLOSED
          elevenWs := some ReadyState.CLOSING }, [.closeAgent]) ∧
    (onTwilioClose initSession).2 = [] :=
  ⟨(teardown_caller_to_agent_only.1 (afterBoth (.str "CA123")) rfl).1,
   (teardown_caller_to_agent_only.2.1 initSession (by decide)).1⟩

/-- C5: a caller `media` frame arriving while the agent socket is not
`OPEN` is dropped with no state change and no output — and since the
state is unchanged, running any continuation trace gives exactly the
behaviour it would have had without the frame (never buffered, never
forwarded late).  Once the agent socket is `OPEN`, a truthy payload is
forwarded immediately as `{user_audio_chunk: payload}` for any values of
the gate flags (`convoStarted`, `twilioStarted` are unconstrained). -/
theorem caller_media_drop_or_forward (s : Session) (p : JSVal) :
    (s.elevenWs ≠ some ReadyState.OPEN →
        onTwilioMessage s (.good (callerMediaFrame p)) = .ok (s, []) ∧
        ∀ es, runTrace s (.twilioMsg (.good (callerMediaFrame p)) :: es) =
          runTrace s es) ∧
    (s.elevenWs = some ReadyState.OPEN → truthy p = true →
        onTwilioMessage s (.good (callerMediaFrame p)) =
          .ok (s, [.sendAgent (.obj [("user_audio_chunk", p)])])) := by
  constructor
  · intro hws
    have hdrop : onTwilioMessage s (.good (callerMediaFrame p)) = .ok (s, []) := by
      rcases hE : s.elevenWs with _ | rs
      · simp [onTwilioMessage, callerMediaFrame, getField, lookupField, optField,
          isStr, mediaForwardOuts, hE]
      · cases rs <;>
          simp_all [onTwilioMessage, callerMediaFrame, getField, lookupField,
            optField, isStr, mediaForwardOuts]
    refine ⟨hdrop, ?_⟩
    intro es
    have hstep : step s (.twilioMsg (.good (callerMediaFrame p))) = .ok (s, []) := by
      simp [step, hdrop]
    simp only [runTrace, hstep]
    cases hrt : runTrace s es <;> simp
  · intro hws hp
    simp [onTwilioMessage, callerMediaFrame, getField, lookupField, optField,
      isStr, mediaForwardOuts, hws, hp]

/-- Witness for C5: before the agent leg opens (initial state) a media
frame is dropped and leaves the run unchanged; with the agent leg open it
is forwarded at once even though the gate has not fired. -/
theorem caller_media_drop_or_forward_witness :
    (onTwilioMessage initSession (.good (callerMediaFrame (.str "AAAA"))) =
        .ok (initSession, []) ∧
      runTrace initSession [.twilioMsg (.good (callerMediaFrame (.str "AAAA")))] =
        runTrace initSession []) ∧
    onTwilioMessage afterAgentOpen (.good (callerMediaFrame (.str "AAAA"))) =
      .ok (afterAgentOpen, [.sendAgent (.obj [("user_audio_chunk", .str "AAAA")])]) :=
  ⟨⟨((caller_media_drop_or_forward initSession (.str "AAAA")).1 (by decide)).1,
    ((caller_media_drop_or_forward initSession (.str "AAAA")).1 (by decide)).2 []⟩,
   (caller_media_drop_or_forward afterAgentOpen (.str "AAAA")).2 rfl rfl⟩

/-- C6: an agent `audio` frame received while the stream identifier is
falsy (null at startup, or empty) is dropped with no state change and no
output; moreover, for every event the bridge can process, every envelope
sent to the caller leg carries a `streamSid` field whose value is truthy
— never missing, null, or empty. -/
theorem no_sidless_caller_envelope :
    (∀ (s : Session) (p : JSVal), truthy s.streamSid = false →
        onElevenMessage s (.good (audioFrame p)) = .ok (s, [])) ∧
    (∀ (s : Session) (e : Event) (s' : Session) (outs : List BridgeAction)
        (v : JSVal), step s e = .ok (s', outs) →
        BridgeAction.sendCaller v ∈ outs →
        ∃ sid, getField v "streamSid" = .ok sid ∧ truthy sid = true) := by
  constructor
  · intro s p h
    simp only [onElevenMessage, audioFrame, getField, lookupField, optField,
      isStr, h]
    norm_num
  · intro s e s' outs v H hm
    cases e with
    | elevenOpenEv =>
      simp only [step, Except.ok.injEq] at H
      obtain ⟨rest, heq, hr⟩ := onElevenOpen_outs s
      rw [heq] at H
      simp only [Prod.mk.injEq] at H
      obtain ⟨h1, h2⟩ := H
      subst h2
      rcases hr with rfl | ⟨rfl, _⟩ <;> simp at hm
    | elevenMsg r =>
      simp only [step] at H
      obtain ⟨hs', hmem⟩ := onElevenMessage_ok s r s' outs H
      obtain ⟨htr, hsh⟩ := hmem _ hm
      rcases hsh with ⟨ab, habe⟩ | habe <;>
        (simp only [BridgeAction.sendCaller.injEq] at habe
         subst habe
         exact ⟨s.streamSid, rfl, htr⟩)
    | twilioMsg r =>
      simp only [step] at H
      have hsh := onTwilioMessage_ok s r s' outs H _ hm
      rcases hsh with ⟨q, hq⟩ | hq | ⟨hq, _⟩ <;> simp at hq
    | elevenCloseEv =>
      simp only [step, onElevenClose, Except.ok.injEq, Prod.mk.injEq] at H
      obtain ⟨h1, h2⟩ := H
      subst h2
      simp at hm
    | elevenErrorEv =>
      simp only [step, onElevenError, Except.ok.injEq, Prod.mk.injEq] at H
      obtain ⟨h1, h2⟩ := H
      subst h2
      simp at hm
    | twilioCloseEv =>
      simp only [step, onTwilioClose, Except.ok.injEq] at H
      split at H <;>
        (simp only [Prod.mk.injEq] at H
         obtain ⟨h1, h2⟩ := H
         subst h2
         simp at hm)
    | twilioErrorEv =>
      simp only [step, onTwilioError, Except.ok.injEq] at H
      split at H <;>
        (simp only [Prod.mk.injEq] at H
         obtain ⟨h1, h2⟩ := H
         subst h2
         simp at hm)

/-- Witness for C6: a concrete dropped pre-identifier audio frame, and a
concrete step whose caller-bound envelope carries the truthy id. -/
theorem no_sidless_caller_envelope_witness :
    onElevenMessage initSession (.good (audioFrame (.str "QUJD"))) =
      .ok (initSession, []) ∧
    (∃ sid, getField (.obj [("event", .str "media"), ("streamSid", .str "CA123"),
        ("media", .obj [("payload", .str "QUJD")])]) "streamSid" =
      .ok sid ∧ truthy sid = true) :=
  ⟨no_sidless_caller_envelope.1 initSession (.str "QUJD") rfl,
   no_sidless_caller_envelope.2 (afterBoth (.str "CA123"))
     (.elevenMsg (.good (audioFrame (.str "QUJD"))))
     (afterBoth (.str "CA123"))
     [.sendCaller (.obj [("event", .str "media"), ("streamSid", .str "CA123"),
        ("media", .obj [("payload", .str "QUJD")])])]
     (.obj [("event", .str "media"), ("streamSid", .str "CA123"),
        ("media", .obj [("payload", .str "QUJD")])])
     (by rfl) (by simp)⟩

/-- C3 counterexample: the JSON text `null` parses successfully (so the
frame is not caught by the parse guard) but carries none of the required
fields, and the handler throws on either leg when it reads a property of
the null value — the frame handlers are not total on parseable input. -/
theorem null_frame_crashes_handler :
    onTwilioMessage initSession (.good .null) = .error () ∧
    onElevenMessage initSession (.good .null) = .error () :=
  ⟨rfl, rfl⟩

/-- C3 (amended): non-parseable frames on either leg are dropped with no
state change and no output; every parseable frame whose value is neither
JSON null nor `undefined` is handled without throwing; a frame missing
its required nested fields produces no output — except that a caller
`start` frame missing its identifier still sets `twilioStarted` and
records a null identifier. -/
theorem malformed_frame_handling :
    (∀ s : Session, onTwilioMessage s .bad = .ok (s, []) ∧
        onElevenMessage s .bad = .ok (s, [])) ∧
    (∀ (s : Session) (v : JSVal), v ≠ .null → v ≠ .undefined →
        (∃ r, onTwilioMessage s (.good v) = .ok r) ∧
        (∃ r, onElevenMessage s (.good v) = .ok r)) ∧
    (∀ s : Session, onTwilioMessage s (.good (.obj [("event", .str "start")])) =
        .ok ({ s with streamSid := .null, twilioStarted := true }, [])) ∧
    (∀ s : Session, onElevenMessage s (.good (.obj [("type", .str "audio")])) =
        .ok (s, [])) ∧
    (∀ s : Session, onTwilioMessage s (.good (.obj [("event", .str "media")])) =
        .ok (s, [])) := by
  refine ⟨?_, ?_, ?_, ?_, ?_⟩
  · intro s
    exact ⟨rfl, rfl⟩
  · intro s v h1 h2
    exact ⟨onTwilioMessage_total s v h1 h2, onElevenMessage_total s v h1 h2⟩
  · intro s
    simp only [onTwilioMessage, getField, lookupField, optField, isStr]
    norm_num
    exact congrArg Except.ok (tryStart_of_falsy_sid _ rfl)
  · intro s
    simp [onElevenMessage, getField, lookupField, optField, isStr, truthy]
  · intro s
    rcases hE : s.elevenWs with _ | rs
    · simp [onTwilioMessage, getField, lookupField, optField, isStr,
        mediaForwardOuts, truthy, hE]
    · cases rs <;>
        simp [onTwilioMessage, getField, lookupField, optField, isStr,
          mediaForwardOuts, truthy, hE]

/-- Witness for C3's amended theorem at concrete frames. -/
theorem malformed_frame_handling_witness :
    onTwilioMessage initSession .bad = .ok (initSession, []) ∧
    (∃ r, onTwilioMessage initSession (.good (.str "hello")) = .ok r) ∧
    onTwilioMessage initSession (.good (.obj [("event", .str "start")])) =
      .ok ({ initSession with streamSid := .null, twilioStarted := true }, []) :=
  ⟨(malformed_frame_handling.1 initSession).1,
   (malformed_frame_handling.2.1 initSession (.str "hello")
      (by simp) (by simp)).1,
   malformed_frame_handling.2.2.1 initSession⟩

/-- C10 counterexample: run caller-start("CA123"), agent-open, then a
second caller `start` frame whose nested identifier is the empty string.
The final reachable state has `convoStarted = true` while the recorded
stream identifier is null, so "conversation-started implies
stream-identifier-present" is not a session invariant. -/
theorem convo_started_with_null_sid_reachable :
    runTrace initSession
        [.twilioMsg (.good (startFrame (.str "CA123"))), .elevenOpenEv,
         .twilioMsg (.good (startFrame (.str "")))] =
      .ok ({ afterBoth (.str "CA123") with streamSid := JSVal.null },
        [.sendAgent conversationConfigMsg, .sendAgent startMsg]) ∧
    ({ afterBoth (.str "CA123") with streamSid := JSVal.null }).convoStarted = true ∧
    ({ afterBoth (.str "CA123") with streamSid := JSVal.null }).streamSid = JSVal.null :=
  ⟨rfl, rfl, rfl⟩

/-- C10 (amended): a caller `start` frame with a falsy (absent or empty)
nested identifier sets caller-started and records the identifier as
null, emitting nothing; the gate never fires from a state with a falsy
recorded identifier; and whenever any step emits the start signal, the
resulting state's recorded identifier is truthy (in particular not
null).  Conversation-started does not, however, remain coupled to a
non-null identifier afterwards. -/
theorem null_sid_gate_never_fires :
    (∀ (s : Session) (sidv : JSVal), truthy sidv = false →
        onTwilioMessage s (.good (startFrame sidv)) =
          .ok ({ s with streamSid := .null, twilioStarted := true }, [])) ∧
    (∀ s : Session, truthy s.streamSid = false →
        tryStartConversation s = (s, [])) ∧
    (∀ (s : Session) (e : Event) (s' : Session) (outs : List BridgeAction),
        step s e = .ok (s', outs) → BridgeAction.sendAgent startMsg ∈ outs →
        truthy s'.streamSid = true ∧ s'.streamSid ≠ JSVal.null) := by
  refine ⟨?_, tryStart_of_falsy_sid, ?_⟩
  · intro s sidv h
    have h0 : truthy JSVal.null = false := rfl
    simp [onTwilioMessage, startFrame, getField, lookupField, optField,
      isStr, h, h0, tryStart_of_falsy_sid]
  · intro s e s' outs H hm
    cases e with
    | elevenOpenEv =>
      simp only [step, Except.ok.injEq] at H
      obtain ⟨rest, heq, hr⟩ := onElevenOpen_outs s
      rw [heq] at H
      simp only [Prod.mk.injEq] at H
      obtain ⟨h1, h2⟩ := H
      subst h1
      subst h2
      rcases List.mem_cons.1 hm with heq2 | hm
      · simp [conversationConfigMsg, startMsg] at heq2
      · rcases hr with rfl | ⟨rfl, htr⟩
        · exact absurd hm (List.not_mem_nil _)
        · rw [tryStart_fst_streamSid]
          exact ⟨htr, truthy_ne_null htr⟩
    | elevenMsg r =>
      simp only [step] at H
      obtain ⟨hs', hmem⟩ := onElevenMessage_ok s r s' outs H
      obtain ⟨htr, hsh⟩ := hmem _ hm
      rcases hsh with ⟨ab, habe⟩ | habe <;> simp at habe
    | twilioMsg r =>
      simp only [step] at H
      have hsh := onTwilioMessage_ok s r s' outs H _ hm
      rcases hsh with ⟨q, hq⟩ | hq | ⟨_, hq⟩
      · simp [startMsg] at hq
      · simp at hq
      · exact ⟨hq, truthy_ne_null hq⟩
    | elevenCloseEv =>
      simp only [step, onElevenClose, Except.ok.injEq, Prod.mk.injEq] at H
      obtain ⟨h1, h2⟩ := H
      subst h2
      simp at hm
    | elevenErrorEv =>
      simp only [step, onElevenError, Except.ok.injEq, Prod.mk.injEq] at H
      obtain ⟨h1, h2⟩ := H
      subst h2
      simp at hm
    | twilioCloseEv =>
      simp only [step, onTwilioClose, Except.ok.injEq] at H
      split at H <;>
        (simp only [Prod.mk.injEq] at H
         obtain ⟨h1, h2⟩ := H
         subst h2
         simp at hm)
    | twilioErrorEv =>
      simp only [step, onTwilioError, Except.ok.injEq] at H
      split at H <;>
        (simp only [Prod.mk.injEq] at H
         obtain ⟨h1, h2⟩ := H
         subst h2
         simp at hm)

/-- Witness for C10's amended theorem at concrete inputs. -/
theorem null_sid_gate_never_fires_witness :
    onTwilioMessage initSession (.good (startFrame (.str ""))) =
      .ok ({ initSession with streamSid := .null, twilioStarted := true }, []) ∧
    tryStartConversation initSession = (initSession, []) ∧
    (truthy (afterBoth (.str "CA123")).streamSid = true ∧
      (afterBoth (.str "CA123")).streamSid ≠ JSVal.null) :=
  ⟨null_sid_gate_never_fires.1 initSession (.str "") rfl,
   null_sid_gate_never_fires.2.1 initSession rfl,
   null_sid_gate_never_fires.2.2 (afterCallerStart (.str "CA123")) .elevenOpenEv
     (afterBoth (.str "CA123"))
     [.sendAgent conversationConfigMsg, .sendAgent startMsg]
     rfl (List.mem_cons_of_mem _ (List.mem_cons_self _ _))⟩

/-! ## Credential Fetcher (getSignedUrl, src/inbound-calls.js lines 16-36)

Only the construction of the request URL is modelled: the template
literal embeds `encodeURIComponent(ELEVENLABS_AGENT_ID)` after the fixed
`...?agent_id=` base.  `encodeURIComponent` is embedded from its
ECMA-262 semantics: code points whose character is in `uriUnescaped`
(alphanumerics and `-_.!~*'()`) are copied, every other code point is
written as the `%HH` hex escapes of its UTF-8 bytes. -/

/-- Characters `encodeURIComponent` leaves unescaped (ECMA-262
`uriUnescaped`). -/
def uriUnescaped (c : Char) : Bool :=
  ('A' ≤ c && c ≤ 'Z') || ('a' ≤ c && c ≤ 'z') || ('0' ≤ c && c ≤ '9') ||
    (['-', '_', '.', '!', '~', '*', '\'', '(', ')'].contains c)

/-- Upper-case hex digit of `n % 16`. -/
def hexDigit (n : Nat) : Char :=
  if n % 16 < 10 then Char.ofNat (48 + n % 16) else Char.ofNat (55 + n % 16)

/-- The UTF-8 bytes of a code point. -/
def utf8Bytes (c : Nat) : List Nat :=
  if c < 128 then [c]
  else if c < 2048 then [192 + c / 64, 128 + c % 64]
  else if c < 65536 then [224 + c / 4096, 128 + c / 64 % 64, 128 + c % 64]
  else [240 + c / 262144, 128 + c / 4096 % 64, 128 + c / 64 % 64, 128 + c % 64]

/-- Encoding of one character: itself when unescaped, otherwise the
percent escapes of its UTF-8 bytes. -/
def encChar (c : Char) : List Char :=
  if uriUnescaped c then [c]
  else (utf8Bytes c.toNat).foldr
    (fun b acc => '%' :: hexDigit (b / 16) :: hexDigit (b % 16) :: acc) []

/-- `encodeURIComponent` over a whole string. -/
def encodeURIComponent (s : String) : String :=
  String.mk (s.data.foldr (fun c acc => encChar c ++ acc) [])

/-- The URL built by `getSignedUrl` (the template literal at lines
17-20). -/
def getSignedUrlRequestUrl (agentId : String) : String :=
  "https://api.elevenlabs.io/v1/convai/conversation/get_signed_url?agent_id="
    ++ encodeURIComponent agentId

theorem hexDigit_unescaped (n : Nat) : uriUnescaped (hexDigit n) = true := by
  unfold hexDigit
  have h : n % 16 < 16 := Nat.mod_lt _ (by norm_num)
  generalize hg : n % 16 = m at h ⊢
  interval_cases m <;> decide

theorem encChar_safe (c : Char) :
    ∀ x ∈ encChar c, uriUnescaped x = true ∨ x = '%' := by
  unfold encChar
  split
  · next h =>
      intro x hx
      rw [List.mem_singleton] at hx
      subst hx
      exact Or.inl h
  · intro x hx
    generalize utf8Bytes c.toNat = bs at hx
    induction bs with
    | nil => exact absurd hx (List.not_mem_nil x)
    | cons b rest ih =>
      simp only [List.foldr] at hx
      rcases List.mem_cons.1 hx with rfl | hx2
      · exact Or.inr rfl
      rcases List.mem_cons.1 hx2 with rfl | hx3
      · exact Or.inl (hexDigit_unescaped _)
      rcases List.mem_cons.1 hx3 with rfl | hx4
      · exact Or.inl (hexDigit_unescaped _)
      · exact ih hx4

theorem encodeURIComponent_safe (s : String) :
    ∀ x ∈ (encodeURIComponent s).data, uriUnescaped x = true ∨ x = '%' := by
  intro x hx
  have hx2 : x ∈ s.data.foldr (fun c acc => encChar c ++ acc) [] := hx
  clear hx
  generalize s.data = l at hx2
  induction l with
  | nil => exact absurd hx2 (List.not_mem_nil x)
  | cons c cs ih =>
    simp only [List.foldr] at hx2
    rcases List.mem_append.1 hx2 with h1 | h2
    · exact encChar_safe c x h1
    · exact ih h2

/-- C9: the credential-request URL is the fixed endpoint with the agent
identifier percent-encoded as the `agent_id` query value: the URL splits
as the base ending in `agent_id=` followed by exactly
`encodeURIComponent agentId`, and every character of that encoded value
is an unescaped character or `%` — in particular never a URL delimiter
(ampersand, equals sign, question mark, hash, space, or slash), so the
query parameter is exactly the percent-encoding of the identifier. -/
theorem signed_url_query_percent_encodes_agent_id (agentId : String) :
    getSignedUrlRequestUrl agentId =
      "https://api.elevenlabs.io/v1/convai/conversation/get_signed_url?agent_id="
        ++ encodeURIComponent agentId ∧
    ∀ x ∈ (encodeURIComponent agentId).data,
      (uriUnescaped x = true ∨ x = '%') ∧
      x ∉ ['&', '=', '?', '#', ' ', '/'] := by
  refine ⟨rfl, ?_⟩
  intro x hx
  have h := encodeURIComponent_safe agentId x hx
  refine ⟨h, ?_⟩
  intro hmem
  fin_cases hmem <;> revert h <;> decide

/-- Witness for C9: a concrete identifier containing reserved
characters, with the encoding evaluated. -/
theorem signed_url_query_percent_encodes_agent_id_witness :
    encodeURIComponent "a&b c" = "a%26b%20c" ∧
    (getSignedUrlRequestUrl "a&b c" =
        "https://api.elevenlabs.io/v1/convai/conversation/get_signed_url?agent_id="
          ++ encodeURIComponent "a&b c" ∧
      ∀ x ∈ (encodeURIComponent "a&b c").data,
        (uriUnescaped x = true ∨ x = '%') ∧
        x ∉ ['&', '=', '?', '#', ' ', '/']) :=
  ⟨rfl, signed_url_query_percent_encodes_agent_id "a&b c"⟩
